import Mathlib

/-!
Verification of the Veda RAG chatbot service, shallowly embedding
`servrside/rigveda_app.py` and `servrside/yajurveda_app.py`: the quiz-trigger
state machine, retrieval, session transcripts, topic extraction, quiz
generation and quiz grading.

Conventions: Python ints are `Int` (or `Nat` where the source value is a
count), Python floats occurring in scores/percentages are `ℚ`, a Python dict
keyed by strings is an association list `List (String × α)`, a raised Python
exception is `Except.error`, and the external capabilities (OpenAI embedding,
OpenAI chat completion, the FAISS index search, `json.loads`) are supplied as
explicit oracle arguments describing their outcome for the one call the
modelled function makes.
-/

/-- A conversation message as stored in `conversations[session_id]`:
a Python dict with fields `timestamp`, `sender`, `text`. -/
structure Msg where
  timestamp : String
  sender : String
  text : String
deriving DecidableEq, Repr

/-- Per-session quiz cadence state as stored in `user_quiz_states[session_id]`:
a Python dict with integer fields `message_count`, `last_quiz_at`,
`quiz_frequency`. -/
structure QuizState where
  message_count : Int
  last_quiz_at : Int
  quiz_frequency : Int
deriving DecidableEq, Repr

/-- Python `d.get(k)` / `k in d` read on a string-keyed dict modelled as an
association list (keys are unique in a Python dict; lookup finds the first
binding). -/
def dictGet {α : Type} (d : List (String × α)) (k : String) : Option α :=
  match d with
  | [] => none
  | (k', v) :: rest => if k' = k then some v else dictGet rest k

/-- Python `d[k] = v` on a string-keyed dict modelled as an association list:
replace the existing binding in place, or append a fresh one. -/
def dictSet {α : Type} (d : List (String × α)) (k : String) (v : α) :
    List (String × α) :=
  match d with
  | [] => [(k, v)]
  | (k', v') :: rest =>
    if k' = k then (k, v) :: rest else (k', v') :: dictSet rest k v

theorem dictGet_dictSet_self {α : Type} (d : List (String × α)) (k : String)
    (v : α) : dictGet (dictSet d k v) k = some v := by
  induction d with
  | nil => simp [dictGet, dictSet]
  | cons p rest ih =>
    obtain ⟨k', v'⟩ := p
    by_cases h : k' = k
    · simp [dictGet, dictSet, h]
    · simp [dictGet, dictSet, h, ih]

theorem dictGet_dictSet_ne {α : Type} (d : List (String × α)) (k k' : String)
    (v : α) (hne : k ≠ k') : dictGet (dictSet d k v) k' = dictGet d k' := by
  induction d with
  | nil => simp [dictGet, dictSet, hne]
  | cons p rest ih =>
    obtain ⟨k₀, v₀⟩ := p
    by_cases h : k₀ = k
    · subst h
      simp [dictGet, dictSet, hne]
    · simp only [dictSet, if_neg h]
      by_cases h' : k₀ = k'
      · simp [dictGet, h']
      · simp [dictGet, h', ih]

/-- Core transition of `should_trigger_quiz` on a single session's quiz state:
`state['message_count'] += 1`; if
`state['message_count'] - state['last_quiz_at'] >= state['quiz_frequency']`
then `state['last_quiz_at'] = state['message_count']` and the call reports
`True`, else it reports `False`. -/
def shouldTriggerQuizStep (s : QuizState) : Bool × QuizState :=
  if s.quiz_frequency ≤ s.message_count + 1 - s.last_quiz_at then
    (true, ⟨s.message_count + 1, s.message_count + 1, s.quiz_frequency⟩)
  else
    (false, ⟨s.message_count + 1, s.last_quiz_at, s.quiz_frequency⟩)

/-- `should_trigger_quiz(session_id)` acting on the `user_quiz_states` dict:
an unseen session is first initialised to
`{'message_count': 0, 'last_quiz_at': 0, 'quiz_frequency': freq}` (the corpus
constant `freq` is 4 in `rigveda_app.py` and 3 in `yajurveda_app.py`), then
the counter transition runs on that session's state. -/
def should_trigger_quiz (freq : Int) (sid : String)
    (states : List (String × QuizState)) :
    Bool × List (String × QuizState) :=
  let states1 :=
    match dictGet states sid with
    | some _ => states
    | none => dictSet states sid ⟨0, 0, freq⟩
  let st := (dictGet states1 sid).getD ⟨0, 0, freq⟩
  let bs := shouldTriggerQuizStep st
  (bs.1, dictSet states1 sid bs.2)

/-- Quiz state of one session after `n` calls to `should_trigger_quiz`,
starting from the freshly initialised state `{0, 0, f}`. -/
def quizRun (f : Nat) : Nat → QuizState
  | 0 => ⟨0, 0, (f : Int)⟩
  | n + 1 => (shouldTriggerQuizStep (quizRun f n)).2

/-- Boolean returned by the `(n+1)`-th call to `should_trigger_quiz`, starting
from the freshly initialised state `{0, 0, f}`. -/
def quizResult (f : Nat) (n : Nat) : Bool :=
  (shouldTriggerQuizStep (quizRun f n)).1

theorem quizRun_spec (f : Nat) (hf : 0 < f) (n : Nat) :
    ∃ q : Nat,
      (quizRun f n).message_count = (n : Int) ∧
      (quizRun f n).last_quiz_at = ((f * q : Nat) : Int) ∧
      (quizRun f n).quiz_frequency = (f : Int) ∧
      f * q ≤ n ∧ n < f * q + f := by
  induction n with
  | zero => exact ⟨0, by simp [quizRun], by simp [quizRun], by simp [quizRun],
      by omega, by simpa using hf⟩
  | succ n ih =>
    obtain ⟨q, hc, hl, hfq, hle, hlt⟩ := ih
    have hmul : f * (q + 1) = f * q + f := Nat.mul_succ f q
    simp only [quizRun, shouldTriggerQuizStep]
    by_cases h : f * q + f ≤ n + 1
    · rw [if_pos (by rw [hc, hl, hfq]; omega)]
      dsimp only
      exact ⟨q + 1, by rw [hc]; push_cast; ring, by rw [hc]; omega,
        by rw [hfq], by omega, by omega⟩
    · rw [if_neg (by rw [hc, hl, hfq]; omega)]
      dsimp only
      exact ⟨q, by rw [hc]; push_cast; ring, by rw [hl], by rw [hfq],
        by omega, by omega⟩

theorem quizResult_true_iff (f : Nat) (hf : 0 < f) (n : Nat) :
    quizResult f n = true ↔ f ∣ (n + 1) := by
  obtain ⟨q, hc, hl, hfq, hle, hlt⟩ := quizRun_spec f hf n
  have hmul : f * (q + 1) = f * q + f := Nat.mul_succ f q
  unfold quizResult
  simp only [shouldTriggerQuizStep]
  by_cases h : f * q + f ≤ n + 1
  · rw [if_pos (by rw [hc, hl, hfq]; omega)]
    exact iff_of_true rfl ⟨q + 1, by omega⟩
  · rw [if_neg (by rw [hc, hl, hfq]; omega)]
    refine iff_of_false (by simp) ?_
    rintro ⟨k, hk⟩
    rcases Nat.lt_or_ge q k with hqk | hqk
    · have : f * (q + 1) ≤ f * k := Nat.mul_le_mul_left f hqk
      omega
    · have : f * k ≤ f * q := Nat.mul_le_mul_left f hqk
      omega

/-- C1: quiz-trigger cadence.  Starting from a freshly initialised session
state `{message_count := 0, last_quiz_at := 0, quiz_frequency := f}` with
`f > 0`, the `(n+1)`-th call to `should_trigger_quiz` returns `true` exactly
when `f` divides `n+1` (i.e. on every `f`-th call), and after any number `n`
of calls the state satisfies `last_quiz_at ≤ message_count`,
`message_count = n`, and `last_quiz_at = f * (n / f)` — the exchange count at
the most recent call that returned `true` (`0` if none has). -/
theorem quiz_trigger_cadence (f n : Nat) (hf : 0 < f) :
    (quizResult f n = true ↔ (n + 1) % f = 0) ∧
    (quizRun f n).last_quiz_at ≤ (quizRun f n).message_count ∧
    (quizRun f n).message_count = (n : Int) ∧
    (quizRun f n).last_quiz_at = ((f * (n / f) : Nat) : Int) := by
  obtain ⟨q, hc, hl, hfq, hle, hlt⟩ := quizRun_spec f hf n
  have hq : n / f = q := by
    have := Nat.div_add_mod n f
    have hmod : n % f < f := Nat.mod_lt n hf
    -- from f * q ≤ n < f * q + f and n = f * (n / f) + n % f, conclude n / f = q
    rcases Nat.lt_trichotomy (n / f) q with hlt' | heq | hgt'
    · have : f * (n / f + 1) ≤ f * q := Nat.mul_le_mul_left f hlt'
      have hms : f * (n / f + 1) = f * (n / f) + f := Nat.mul_succ f (n / f)
      omega
    · exact heq
    · have : f * (q + 1) ≤ f * (n / f) := Nat.mul_le_mul_left f hgt'
      have hms : f * (q + 1) = f * q + f := Nat.mul_succ f q
      omega
  refine ⟨?_, ?_, ?_, ?_⟩
  · rw [quizResult_true_iff f hf n]
    exact Nat.dvd_iff_mod_eq_zero
  · rw [hc, hl]; omega
  · exact hc
  · rw [hl, hq]

/-- C1 witness: concrete run with frequency 3 — the 6th call (n = 5) returns
`true`, and after 5 calls the counters are `message_count = 5`,
`last_quiz_at = 3`. -/
theorem quiz_trigger_cadence_witness :
    (quizResult 3 5 = true ↔ (5 + 1) % 3 = 0) ∧
    (quizRun 3 5).last_quiz_at ≤ (quizRun 3 5).message_count ∧
    (quizRun 3 5).message_count = (5 : Int) ∧
    (quizRun 3 5).last_quiz_at = ((3 * (5 / 3) : Nat) : Int) :=
  quiz_trigger_cadence 3 5 (by decide)

/-- The loaded FAISS index, abstracted to what the service observes of it at
runtime: its row count (`index.ntotal`, the number of vectors added by the
offline build job).  Its nearest-neighbour search is an external capability
whose per-call outcome is passed as an oracle argument. -/
structure VIndex where
  rowCount : Nat
deriving DecidableEq, Repr

/-- Exceptions the modelled code can raise. -/
inductive PyExc
  /-- `raise Exception("Index not loaded")` in `search` -/
  | indexNotLoaded
  /-- re-raised failure of `client.embeddings.create` in `embed` (rigveda) -/
  | embeddingError
  /-- Python `IndexError` from `verses[i]` -/
  | indexOutOfRange
  /-- failure of `client.chat.completions.create` -/
  | completionError
deriving DecidableEq, Repr

/-- A float vector produced by the embedding capability. -/
def EmbVec : Type := List ℚ

/-- Python list indexing `l[i]`: a nonnegative index counts from the front, a
negative index wraps from the back, and anything out of range raises
`IndexError` (modelled as `none`). -/
def pyIndex {α : Type} (l : List α) (i : Int) : Option α :=
  if 0 ≤ i then l.get? i.toNat
  else if 0 ≤ (l.length : Int) + i then l.get? ((l.length : Int) + i).toNat
  else none

theorem pyIndex_isSome_of_lt {α : Type} (l : List α) (i : Int)
    (h0 : 0 ≤ i) (hl : i < (l.length : Int)) : (pyIndex l i).isSome := by
  unfold pyIndex
  rw [if_pos h0]
  have hn : i.toNat < l.length := by omega
  rw [List.get?_eq_getElem?, List.getElem?_eq_getElem hn]
  rfl

namespace RV

/-- A Rigveda verse record, one element of the list unpickled from
`rigveda_meta.pkl`: a dict with string fields `mandala`, `sukta`, `verse`,
`text_sa` (built by `parsing/rigveda_raw_data/parser.py`, which stores the
regex capture groups unconverted). -/
structure Verse where
  mandala : String
  sukta : String
  verse : String
  text_sa : String
deriving DecidableEq, Repr

/-- `load_data()` in `rigveda_app.py`: read the FAISS index file and unpickle
the metadata file; any failure of either read makes the whole `try` fail and
the function return `False` with the globals left unset.  The two file-read
outcomes are the oracles `idxFile` and `metaFile` (`none` = the read raised).
The body contains no comparison between the index row count and the verse
list length. -/
def load_data (idxFile : Option VIndex) (metaFile : Option (List Verse)) :
    Option (VIndex × List Verse) :=
  match idxFile, metaFile with
  | some idx, some vs => some (idx, vs)
  | _, _ => none

/-- The `status` field computed by the `/api/health` route of
`rigveda_app.py`: `'healthy'` iff both globals `index` and `verses` are
set. -/
def healthStatus (index : Option VIndex) (verses : Option (List Verse)) :
    String :=
  if index.isSome ∧ verses.isSome then "healthy" else "degraded"

end RV

namespace YV

/-- A Yajurveda verse record, one element of the list unpickled from
`yajurveda_meta.pkl`: a dict of string fields (the offline parser produces
`reference`, `page`, `text`; the app reads `chapter`, `verse`, `text_sa`,
`text` through `.get` with defaults), modelled as a string-keyed dict. -/
def Verse : Type := List (String × String)

/-- `load_data()` in `yajurveda_app.py`: walk the ordered list of candidate
path pairs; for the first candidate whose two files exist and read without
error, load that pair and return `True`; skip every failing candidate; return
`False` if none works.  Each candidate's combined existence-check-and-read
outcome is one element of `candidates`.  The body contains no comparison
between the index row count and the verse list length. -/
def load_data : List (Option (VIndex × List Verse)) →
    Option (VIndex × List Verse)
  | [] => none
  | some p :: _ => some p
  | none :: rest => load_data rest

/-- The `status` field computed by the `/api/health` route of
`yajurveda_app.py`. -/
def healthStatus (index : Option VIndex) (verses : Option (List Verse)) :
    String :=
  if index.isSome ∧ verses.isSome then "healthy" else "degraded"

end YV

/-- Three concrete Rigveda verse records, deliberately one more than the row
count of the index they are paired with below. -/
def mismatchedVerses : List RV.Verse :=
  [⟨"01", "001", "01", "agním īḷe puróhitaṃ"⟩,
   ⟨"01", "001", "02", "agníḥ pū́rvebhir ŕ̥ṣibhir"⟩,
   ⟨"01", "001", "03", "agnínā rayím aśnavat"⟩]

/-- C3 counterexample: a readable index file with 2 rows and a readable
metadata file with 3 verses disagree in row count, yet `load_data` loads them
and the service reports itself healthy — the claimed load-time invariant
check does not exist in the code. -/
theorem load_rowcount_mismatch_counterexample :
    RV.load_data (some ⟨2⟩) (some mismatchedVerses) =
      some (⟨2⟩, mismatchedVerses) ∧
    RV.healthStatus (some ⟨2⟩) (some mismatchedVerses) = "healthy" ∧
    (⟨2⟩ : VIndex).rowCount ≠ mismatchedVerses.length :=
  ⟨rfl, rfl, by decide⟩

/-- C3 amended: at startup, `load_data` checks only that the corpus files can
be read.  In `rigveda_app.py` any readable index/metadata pair — row counts
agreeing or not — is loaded and the service then reports itself healthy, and
the load fails exactly when reading either file fails; in `yajurveda_app.py`
the first candidate location whose files read successfully is loaded the same
way, a failing candidate is skipped, and an empty candidate list leaves the
corpus degraded.  Neither app compares `len(verses)` with the index row
count. -/
theorem load_data_reads_only (idxFile : Option VIndex)
    (metaFile : Option (List RV.Verse)) :
    (∀ idx vs, idxFile = some idx → metaFile = some vs →
      RV.load_data idxFile metaFile = some (idx, vs) ∧
      RV.healthStatus (some idx) (some vs) = "healthy") ∧
    (idxFile = none ∨ metaFile = none →
      RV.load_data idxFile metaFile = none) ∧
    (∀ (rest : List (Option (VIndex × List YV.Verse))) idx vs,
      YV.load_data (some (idx, vs) :: rest) = some (idx, vs)) ∧
    (∀ (rest : List (Option (VIndex × List YV.Verse))),
      YV.load_data (none :: rest) = YV.load_data rest) ∧
    YV.load_data [] = none := by
  refine ⟨?_, ?_, ?_, ?_, rfl⟩
  · rintro idx vs rfl rfl
    exact ⟨rfl, rfl⟩
  · rintro (rfl | rfl)
    · rfl
    · cases idxFile <;> rfl
  · intro rest idx vs
    rfl
  · intro rest
    rfl

/-- C3 amended witness: the mismatched concrete pair from the counterexample
loads successfully and reports healthy. -/
theorem load_data_reads_only_witness :
    RV.load_data (some ⟨2⟩) (some mismatchedVerses) =
      some (⟨2⟩, mismatchedVerses) ∧
    RV.healthStatus (some ⟨2⟩) (some mismatchedVerses) = "healthy" :=
  (load_data_reads_only (some ⟨2⟩) (some mismatchedVerses)).1 ⟨2⟩
    mismatchedVerses rfl rfl

namespace RV

/-- `embed(texts)` in `rigveda_app.py`: call the OpenAI embedding capability
and re-raise any failure.  The call's outcome is the oracle `embedOut`
(`none` = the upstream call raised). -/
def embed (embedOut : Option (List EmbVec)) : Except PyExc (List EmbVec) :=
  match embedOut with
  | some vecs => .ok vecs
  | none => .error .embeddingError

/-- The list comprehension
`[(verses[i], float(D[0][j])) for j, i in enumerate(I[0])]` closing `search`:
map each row id returned by the FAISS search through the `verses` list,
raising `IndexError` for an id outside Python list range. -/
def lookupRows (vs : List Verse) :
    List (Int × ℚ) → Except PyExc (List (Verse × ℚ))
  | [] => .ok []
  | (i, s) :: rest =>
    match pyIndex vs i with
    | some v =>
      match lookupRows vs rest with
      | .ok r => .ok ((v, s) :: r)
      | .error e => .error e
    | none => .error .indexOutOfRange

/-- `search(query, topk)` in `rigveda_app.py`: raise `"Index not loaded"` if
either global is unset; embed the query (re-raising an embedding failure);
run the FAISS top-K search — its returned row-id/score pairs
`zip(I[0], D[0])` are the oracle `searchOut` — and map every row id through
`verses`, pairing with the score. -/
def search (index : Option VIndex) (verses : Option (List Verse))
    (embedOut : Option (List EmbVec)) (searchOut : List (Int × ℚ))
    (query : String) (topk : Nat) : Except PyExc (List (Verse × ℚ)) :=
  match index, verses with
  | some _, some vs =>
    match embed embedOut with
    | .ok _ => lookupRows vs searchOut
    | .error e => .error e
  | _, _ => .error .indexNotLoaded

theorem lookupRows_ok (vs : List Verse) (out : List (Int × ℚ))
    (hvalid : ∀ p ∈ out, 0 ≤ p.1 ∧ p.1 < (vs.length : Int)) :
    ∃ r, lookupRows vs out = .ok r ∧
      r.length = out.length ∧
      r.map Prod.snd = out.map Prod.snd ∧
      ∀ p ∈ r, ∃ i : Int, 0 ≤ i ∧ i < (vs.length : Int) ∧
        pyIndex vs i = some p.1 := by
  induction out with
  | nil => exact ⟨[], rfl, rfl, rfl, by simp⟩
  | cons hd tl ih =>
    obtain ⟨i, s⟩ := hd
    obtain ⟨hi0, hilen⟩ := hvalid (i, s) (by simp)
    obtain ⟨v, hv⟩ := Option.isSome_iff_exists.mp
      (pyIndex_isSome_of_lt vs i hi0 hilen)
    obtain ⟨r, hr, hrlen, hrmap, hrmem⟩ :=
      ih (fun p hp => hvalid p (List.mem_cons_of_mem _ hp))
    refine ⟨(v, s) :: r, ?_, by simp [hrlen], by simp [hrmap], ?_⟩
    · simp only [lookupRows, hv, hr]
    · intro p hp
      rcases List.mem_cons.mp hp with rfl | hp'
      · exact ⟨i, hi0, hilen, hv⟩
      · exact hrmem p hp'

/-- C4: `search` behaviour.  Under the external contract of the FAISS index
capability — at most `topk` returned pairs, scores strictly descending, every
returned row id a valid row of the loaded index — and with the verse store
aligned to the index (`len(verses) = index.rowCount`), `search` on a loaded
corpus returns at most `topk` verse/score pairs, in strictly descending score
order, each verse being the verse-store entry of a valid index row; and
whenever the index or the verse store is absent, `search` raises the
index-not-loaded error. -/
theorem search_spec (index : VIndex) (vs : List Verse)
    (emb : List EmbVec) (searchOut : List (Int × ℚ)) (query : String)
    (topk : Nat) (hk : 0 < topk) (hlen : searchOut.length ≤ topk)
    (hdesc : (searchOut.map Prod.snd).Pairwise (· > ·))
    (hvalid : ∀ p ∈ searchOut, 0 ≤ p.1 ∧ p.1 < (index.rowCount : Int))
    (halign : vs.length = index.rowCount) :
    (∃ r, search (some index) (some vs) (some emb) searchOut query topk
        = .ok r ∧
      r.length ≤ topk ∧
      (r.map Prod.snd).Pairwise (· > ·) ∧
      ∀ p ∈ r, ∃ i : Int, 0 ≤ i ∧ i < (index.rowCount : Int) ∧
        pyIndex vs i = some p.1) ∧
    (∀ emb' so q k, search none (some vs) emb' so q k
        = .error .indexNotLoaded) ∧
    (∀ emb' so q k, search (some index) none emb' so q k
        = .error .indexNotLoaded) := by
  refine ⟨?_, fun _ _ _ _ => rfl, fun _ _ _ _ => rfl⟩
  obtain ⟨r, hr, hrlen, hrmap, hrmem⟩ :=
    lookupRows_ok vs searchOut (by rw [halign]; exact hvalid)
  refine ⟨r, ?_, by omega, by rw [hrmap]; exact hdesc, ?_⟩
  · simp only [search, embed, hr]
  · intro p hp
    obtain ⟨i, h0, hlt, hpi⟩ := hrmem p hp
    exact ⟨i, h0, by omega, hpi⟩

/-- C4 witness: a loaded two-verse corpus with an aligned two-row index and a
well-behaved capability output yields two results in descending score
order. -/
theorem search_spec_witness :
    ∃ r, search (some ⟨2⟩)
        (some [⟨"01", "001", "01", "agním īḷe"⟩, ⟨"01", "001", "02", "vāyav ā yāhi"⟩])
        (some [[(1 : ℚ)]]) [((0 : Int), (9 : ℚ)), ((1 : Int), (4 : ℚ))] "fire" 2
      = .ok r ∧
      r.length ≤ 2 ∧
      (r.map Prod.snd).Pairwise (· > ·) ∧
      ∀ p ∈ r, ∃ i : Int, 0 ≤ i ∧ i < ((⟨2⟩ : VIndex).rowCount : Int) ∧
        pyIndex [⟨"01", "001", "01", "agním īḷe"⟩, ⟨"01", "001", "02", "vāyav ā yāhi"⟩] i
          = some p.1 :=
  (search_spec ⟨2⟩ _ _ _ "fire" 2 (by decide) (by decide)
    (by decide) (by decide) (by decide)).1

end RV

namespace RV

/-- A submitted quiz question from the client-supplied `quiz_questions`
payload: a dict whose fields the grader reads are `question`,
`correct_answer`, `explanation`; a field the client omitted is `none`. -/
structure QIn where
  question : Option String
  correct_answer : Option String
  explanation : Option String
deriving DecidableEq, Repr

/-- One entry of the `results` list built by `api_submit_quiz`. -/
structure GradedItem where
  question : String
  user_answer : Option String
  correct_answer : String
  is_correct : Bool
  explanation : String
deriving DecidableEq, Repr

/-- Input-validation rejections `api_submit_quiz` returns as HTTP 400. -/
inductive GradeErr
  /-- `'No quiz questions provided'` -/
  | noQuestions
  /-- `f'Question {i} missing correct_answer'` -/
  | missingCorrectAnswer (i : Nat)
deriving DecidableEq, Repr

/-- The scoring loop of `api_submit_quiz` from positional index `i` on: look
up `answers.get(str(i))`; reject if the question dict lacks
`correct_answer`; record `is_correct = (user_answer == correct_answer)` (an
absent submitted answer is `None`, never equal to the correct-answer string)
and count the correct ones. -/
def gradeLoop (answers : List (String × String)) :
    Nat → List QIn → Except GradeErr (Nat × List GradedItem)
  | _, [] => .ok (0, [])
  | i, q :: rest =>
    match q.correct_answer with
    | none => .error (.missingCorrectAnswer i)
    | some ca =>
      let ua := dictGet answers (Nat.repr i)
      let ic := ua == some ca
      match gradeLoop answers (i + 1) rest with
      | .ok (c, rs) =>
        .ok (if ic then c + 1 else c,
          ⟨(q.question).getD ("Question " ++ Nat.repr (i + 1)), ua, ca, ic,
            (q.explanation).getD "No explanation provided"⟩ :: rs)
      | .error e => .error e

/-- `score_percentage = (correct_count / total_questions * 100) if
total_questions > 0 else 0`. -/
def scorePercentage (correct total : Nat) : ℚ :=
  if 0 < total then (correct : ℚ) / (total : ℚ) * 100 else 0

/-- Python `round(x, 1)` on the ℚ-modelled percentage: round to one decimal
place, ties to even (Python rounds half to even). -/
def round1 (x : ℚ) : ℚ :=
  let y : ℚ := 10 * x
  let fl : Int := ⌊y⌋
  let r : Int :=
    if y - (fl : ℚ) < 1 / 2 then fl
    else if (1 : ℚ) / 2 < y - (fl : ℚ) then fl + 1
    else if fl % 2 = 0 then fl else fl + 1
  (r : ℚ) / 10

/-- The tiered feedback message of `api_submit_quiz` in `rigveda_app.py`. -/
def feedbackFor (p : ℚ) : String :=
  if 80 ≤ p then
    "🎉 Excellent work! You have a great understanding of Rigvedic wisdom!"
  else if 60 ≤ p then
    "👏 Well done! You\x27re making good progress in your Rigveda studies!"
  else if 40 ≤ p then
    "💪 Good effort! Keep exploring and learning more about Rigveda!"
  else
    "📚 Don\x27t worry! Learning takes time. Let\x27s continue our Rigveda journey together!"

/-- The JSON body returned by `api_submit_quiz` on success. -/
structure QuizReport where
  score : Nat
  total : Nat
  percentage : ℚ
  feedback : String
  results : List GradedItem
deriving DecidableEq, Repr

/-- `api_submit_quiz` in `rigveda_app.py` after the request-shape checks:
reject an empty `quiz_questions` list; run the scoring loop; assemble score,
total, `round(score_percentage, 1)` and the tiered feedback. -/
def api_submit_quiz (quiz_questions : List QIn)
    (answers : List (String × String)) : Except GradeErr QuizReport :=
  if quiz_questions.isEmpty then .error .noQuestions
  else
    match gradeLoop answers 0 quiz_questions with
    | .error e => .error e
    | .ok (c, rs) =>
      let pct := scorePercentage c quiz_questions.length
      .ok ⟨c, quiz_questions.length, round1 pct, feedbackFor pct, rs⟩

theorem round1_two_thirds : round1 (scorePercentage 2 3) = 667 / 10 := by
  have h1 : scorePercentage 2 3 = 200 / 3 := by
    norm_num [scorePercentage]
  have hy : (10 : ℚ) * (200 / 3) = 2000 / 3 := by norm_num
  have hfl : ⌊(2000 : ℚ) / 3⌋ = 666 := by
    rw [Int.floor_eq_iff]
    norm_num
  rw [h1]
  simp only [round1, hy, hfl]
  norm_num

theorem gradeLoop_ok (answers : List (String × String)) :
    ∀ (qs : List QIn) (i : Nat),
      (∀ q ∈ qs, q.correct_answer.isSome) →
      ∃ c rs, gradeLoop answers i qs = .ok (c, rs) ∧
        rs.length = qs.length ∧
        c = (rs.filter (·.is_correct)).length ∧
        ∀ j q, qs.get? j = some q →
          ∃ r, rs.get? j = some r ∧
            some r.correct_answer = q.correct_answer ∧
            r.user_answer = dictGet answers (Nat.repr (i + j)) ∧
            r.is_correct = (r.user_answer == some r.correct_answer) := by
  intro qs
  induction qs with
  | nil =>
    intro i _
    exact ⟨0, [], rfl, rfl, rfl, by intro j q h; simp at h⟩
  | cons q0 tl ih =>
    intro i hall
    obtain ⟨ca, hca⟩ := Option.isSome_iff_exists.mp (hall q0 (by simp))
    obtain ⟨c, rs, hrec, hlen, hcount, hidx⟩ :=
      ih (i + 1) (fun q hq => hall q (List.mem_cons_of_mem _ hq))
    set ua := dictGet answers (Nat.repr i) with hua
    set ic := (ua == some ca) with hic
    refine ⟨if ic then c + 1 else c,
      ⟨(q0.question).getD ("Question " ++ Nat.repr (i + 1)), ua, ca, ic,
        (q0.explanation).getD "No explanation provided"⟩ :: rs,
      ?_, by simp [hlen], ?_, ?_⟩
    · simp only [gradeLoop, hca, hrec]
    · simp only [List.filter_cons]
      by_cases h : ic = true <;> simp [h, hcount]
    · intro j q hj
      match j with
      | 0 =>
        simp only [List.get?_cons_zero] at hj
        cases hj
        exact ⟨_, rfl, by simp [hca], by simp, by simp⟩
      | j' + 1 =>
        simp only [List.get?_cons_succ] at hj ⊢
        have := hidx j' q hj
        have harith : i + 1 + j' = i + (j' + 1) := by omega
        rw [harith] at this
        exact this

/-- The deterministic 3-question example from the spec: correct answers
`A`, `B`, `C`. -/
def ex3Questions : List QIn :=
  [⟨some "Q1?", some "A", some "E1"⟩,
   ⟨some "Q2?", some "B", some "E2"⟩,
   ⟨some "Q3?", some "C", some "E3"⟩]

/-- The example submitted answers `{"0": "A", "1": "B", "2": "Z"}`. -/
def ex3Answers : List (String × String) := [("0", "A"), ("1", "B"), ("2", "Z")]

/-- C5: grading is a pure positional function of (questions, answers).  For a
submitted quiz whose questions all carry `correct_answer`, grading succeeds;
per question `j`, the recorded submitted answer is `answers.get(str(j))`
(absent = `None`, graded incorrect) and `is_correct` is the case-sensitive
string comparison against that question's `correct_answer`; the score is the
number of correct results, the total is the question count, and the reported
percentage is `round(100 * correct / total, 1)` — with the `total = 0` arm of
the percentage expression evaluating to `0`; on the concrete 2-of-3 example
the reported percentage is `66.7`.  (Determinism is inherent: the model is a
function of its two inputs.) -/
theorem api_submit_quiz_grading (qs : List QIn)
    (answers : List (String × String))
    (hall : ∀ q ∈ qs, q.correct_answer.isSome) (hne : qs ≠ []) :
    (∃ rep, api_submit_quiz qs answers = .ok rep ∧
      rep.total = qs.length ∧
      rep.results.length = qs.length ∧
      rep.score = (rep.results.filter (·.is_correct)).length ∧
      rep.percentage = round1 (scorePercentage rep.score rep.total) ∧
      ∀ j q, qs.get? j = some q →
        ∃ r, rep.results.get? j = some r ∧
          some r.correct_answer = q.correct_answer ∧
          r.user_answer = dictGet answers (Nat.repr j) ∧
          r.is_correct = (r.user_answer == some r.correct_answer)) ∧
    (∀ c : Nat, scorePercentage c 0 = 0) ∧
    (∃ rep66, api_submit_quiz ex3Questions ex3Answers = .ok rep66 ∧
      rep66.score = 2 ∧ rep66.total = 3 ∧ rep66.percentage = 667 / 10) := by
  refine ⟨?_, fun c => by simp [scorePercentage], ?_⟩
  · obtain ⟨c, rs, hrec, hlen, hcount, hidx⟩ := gradeLoop_ok answers qs 0 hall
    refine ⟨⟨c, qs.length, round1 (scorePercentage c qs.length),
      feedbackFor (scorePercentage c qs.length), rs⟩, ?_, rfl, hlen, hcount,
      rfl, ?_⟩
    · simp only [api_submit_quiz, List.isEmpty_eq_true]
      rw [if_neg hne, hrec]
    · intro j q hj
      have := hidx j q hj
      simpa using this
  · refine ⟨⟨2, 3, round1 (scorePercentage 2 3),
      feedbackFor (scorePercentage 2 3),
      [⟨"Q1?", some "A", "A", true, "E1"⟩,
       ⟨"Q2?", some "B", "B", true, "E2"⟩,
       ⟨"Q3?", some "Z", "C", false, "E3"⟩]⟩, rfl, rfl, rfl, ?_⟩
    exact round1_two_thirds

/-- C5 witness: the theorem applied to the concrete 3-question example. -/
theorem api_submit_quiz_grading_witness :
    (∀ q ∈ ex3Questions, q.correct_answer.isSome) ∧ ex3Questions ≠ [] ∧
    ∃ rep, api_submit_quiz ex3Questions ex3Answers = .ok rep ∧
      rep.total = ex3Questions.length ∧
      rep.results.length = ex3Questions.length ∧
      rep.score = (rep.results.filter (·.is_correct)).length ∧
      rep.percentage = round1 (scorePercentage rep.score rep.total) ∧
      ∀ j q, ex3Questions.get? j = some q →
        ∃ r, rep.results.get? j = some r ∧
          some r.correct_answer = q.correct_answer ∧
          r.user_answer = dictGet ex3Answers (Nat.repr j) ∧
          r.is_correct = (r.user_answer == some r.correct_answer) :=
  ⟨by decide, by decide,
    (api_submit_quiz_grading ex3Questions ex3Answers (by decide) (by decide)).1⟩

theorem gradeLoop_err (answers : List (String × String)) :
    ∀ (qs : List QIn) (i : Nat),
      (∃ j q, qs.get? j = some q ∧ q.correct_answer = none) →
      ∃ j q, gradeLoop answers i qs = .error (.missingCorrectAnswer (i + j)) ∧
        qs.get? j = some q ∧ q.correct_answer = none := by
  intro qs
  induction qs with
  | nil =>
    intro i ⟨j, q, hj, _⟩
    simp at hj
  | cons q0 tl ih =>
    intro i hex
    cases hq0 : q0.correct_answer with
    | none =>
      refine ⟨0, q0, ?_, rfl, hq0⟩
      simp only [gradeLoop, hq0, Nat.add_zero]
    | some ca =>
      obtain ⟨j, q, hj, hqnone⟩ := hex
      match j with
      | 0 =>
        simp only [List.get?_cons_zero] at hj
        cases hj
        exact absurd hq0 (by simp [hqnone])
      | j' + 1 =>
        simp only [List.get?_cons_succ] at hj
        obtain ⟨j'', q'', herr, hj'', hnone''⟩ :=
          ih (i + 1) ⟨j', q, hj, hqnone⟩
        refine ⟨j'' + 1, q'', ?_, by simpa using hj'', hnone''⟩
        have harith : i + 1 + j'' = i + (j'' + 1) := by omega
        rw [harith] at herr
        simp only [gradeLoop, hq0]
        cases hrec : gradeLoop answers (i + 1) tl with
        | ok p => rw [hrec] at herr; cases herr
        | error e => rw [hrec] at herr; cases herr; rfl

/-- C6: malformed caller input is rejected.  If any submitted question lacks
the `correct_answer` field, `api_submit_quiz` fails with the
`'Question {i} missing correct_answer'` validation error naming a question
that indeed lacks the field (the first such one), and produces no
QuizReport. -/
theorem api_submit_quiz_rejects_missing (qs : List QIn)
    (answers : List (String × String))
    (hex : ∃ j q, qs.get? j = some q ∧ q.correct_answer = none) :
    ∃ i, api_submit_quiz qs answers = .error (.missingCorrectAnswer i) ∧
      ∃ q, qs.get? i = some q ∧ q.correct_answer = none := by
  obtain ⟨j, q, herr, hget, hqnone⟩ := gradeLoop_err answers qs 0 hex
  rw [Nat.zero_add] at herr
  have hne : qs.isEmpty ≠ true := by
    cases qs with
    | nil => simp at hget
    | cons a l => simp
  refine ⟨j, ?_, q, hget, hqnone⟩
  simp only [api_submit_quiz]
  rw [if_neg hne, herr]

/-- C6 witness: a submission whose second question lacks `correct_answer` is
rejected with the error naming question 1. -/
theorem api_submit_quiz_rejects_missing_witness :
    (∃ j q, ([⟨some "Q1?", some "A", none⟩, ⟨some "Q2?", none, none⟩] :
        List QIn).get? j = some q ∧ q.correct_answer = none) ∧
    ∃ i, api_submit_quiz
        [⟨some "Q1?", some "A", none⟩, ⟨some "Q2?", none, none⟩] [("0", "A")]
      = .error (.missingCorrectAnswer i) ∧
      ∃ q, ([⟨some "Q1?", some "A", none⟩, ⟨some "Q2?", none, none⟩] :
        List QIn).get? i = some q ∧ q.correct_answer = none :=
  ⟨⟨1, ⟨some "Q2?", none, none⟩, rfl, rfl⟩,
    api_submit_quiz_rejects_missing _ _ ⟨1, ⟨some "Q2?", none, none⟩, rfl, rfl⟩⟩

end RV

/-- A parsed JSON value, the result type of `json.loads`. -/
inductive JVal
  | str (s : String)
  | num (q : ℚ)
  | bool (b : Bool)
  | null
  | arr (elems : List JVal)
  | obj (fields : List (String × JVal))

namespace RV

/-- Python `str.find(c)`: index of the first occurrence, `-1` if absent. -/
def strFind (s : String) (c : Char) : Int :=
  match s.toList.findIdx? (· == c) with
  | some i => (i : Int)
  | none => -1

/-- Python `str.rfind(c)`: index of the last occurrence, `-1` if absent. -/
def strRfind (s : String) (c : Char) : Int :=
  match s.toList.reverse.findIdx? (· == c) with
  | some i => (s.toList.length : Int) - 1 - (i : Int)
  | none => -1

/-- Python slice `s[a:b]` for `0 ≤ a ≤ b`, the only shape the code uses. -/
def strSlice (s : String) (a b : Nat) : String :=
  String.mk ((s.toList.drop a).take (b - a))

/-- The response clean-up in `generate_mcq_quiz`: strip the text, strip a
leading markdown code fence, then cut the text down to the outermost
`\x7b ... \x7d` span when one exists. -/
def cleanQuizText (raw : String) : String :=
  let t0 := raw.trim
  let t1 :=
    if t0.startsWith "```json" then
      ((t0.replace "```json" "").replace "```" "").trim
    else if t0.startsWith "```" then
      (t0.replace "```" "").trim
    else t0
  let js := strFind t1 '\x7b'
  let je := strRfind t1 '\x7d' + 1
  if 0 ≤ js ∧ js < je then strSlice t1 js.toNat je.toNat else t1

/-- The structural validation in `generate_mcq_quiz`: the parsed value must
be a dict containing the key `questions` whose value is a non-empty list;
any other shape raises `ValueError` (caught by the surrounding handler). -/
def validQuizData : JVal → Bool
  | .obj fields =>
    match dictGet fields "questions" with
    | some (.arr qs) => !qs.isEmpty
    | some _ => false
    | none => false
  | _ => false

/-- `len(quiz_data['questions'])`, `0` for any malformed payload. -/
def questionCount : JVal → Nat
  | .obj fields =>
    match dictGet fields "questions" with
    | some (.arr qs) => qs.length
    | _ => 0
  | _ => 0

/-- The hardcoded one-question fallback quiz of `generate_mcq_quiz` in
`rigveda_app.py`. -/
def fallbackQuiz : JVal :=
  .obj [("questions", .arr [
    .obj [("question", .str "What is the Rigveda?"),
          ("options", .obj [
            ("A", .str "A collection of ancient Hindu hymns"),
            ("B", .str "A modern philosophical text"),
            ("C", .str "A book of mathematical formulas"),
            ("D", .str "A collection of folk tales")]),
          ("correct_answer", .str "A"),
          ("explanation", .str "The Rigveda is indeed a collection of ancient Hindu hymns, making it one of the oldest religious texts in the world.")]])]

/-- The corpus default topic list of `rigveda_app.py`. -/
def defaultTopics : List String := ["General Rigveda Knowledge"]

/-- `if not topics: topics = [...]` at the head of `generate_mcq_quiz`. -/
def effectiveTopics (topics : List String) : List String :=
  if topics.isEmpty then defaultTopics else topics

/-- `generate_mcq_quiz(topics, conversation_context)` in `rigveda_app.py`:
replace an empty topics list by the corpus default; build the quiz prompt
around `", ".join(topics)` (the long instruction literal is injective in the
joined topic string, which therefore stands for the prompt in the completion
oracle `llm`; `none` = the call raised); strip and clean the response; parse
it with the `json.loads` capability, the oracle `jsonLoads` (`none` =
`JSONDecodeError`); validate the structure.  Every exception along the way is
caught by the surrounding handler, which returns the hardcoded fallback
quiz. -/
def generate_mcq_quiz (jsonLoads : String → Option JVal)
    (llm : String → Option String) (topics : List String) : JVal :=
  match llm (String.intercalate ", " (effectiveTopics topics)) with
  | none => fallbackQuiz
  | some raw =>
    match jsonLoads (cleanQuizText raw) with
    | none => fallbackQuiz
    | some quizData =>
      if validQuizData quizData then quizData else fallbackQuiz

theorem validQuizData_count {d : JVal} (h : validQuizData d = true) :
    1 ≤ questionCount d := by
  cases d with
  | obj fields =>
    simp only [validQuizData] at h
    simp only [questionCount]
    cases hq : dictGet fields "questions" with
    | none => rw [hq] at h; simp at h
    | some v =>
      rw [hq] at h
      cases v with
      | arr qs =>
        cases qs with
        | nil => simp at h
        | cons a l => simp
      | str s => simp at h
      | num q => simp at h
      | bool b => simp at h
      | null => simp at h
      | obj f => simp at h
  | str s => simp [validQuizData] at h
  | num q => simp [validQuizData] at h
  | bool b => simp [validQuizData] at h
  | null => simp [validQuizData] at h
  | arr e => simp [validQuizData] at h

/-- C7: quiz generation is total and always structurally valid.  For every
topics list (an empty one is replaced by the corpus default before prompting)
and every completion/parse outcome, `generate_mcq_quiz` returns a quiz value
with at least one question; in particular a failed completion, an unparseable
cleaned response, or a parsed value failing the `questions` validation each
deterministically yield the hardcoded fallback quiz rather than an
exception (totality of the model embeds the all-catching `except`
handler). -/
theorem generate_mcq_quiz_total (jsonLoads : String → Option JVal)
    (llm : String → Option String) (topics : List String) :
    1 ≤ questionCount (generate_mcq_quiz jsonLoads llm topics) ∧
    (llm (String.intercalate ", " (effectiveTopics topics)) = none →
      generate_mcq_quiz jsonLoads llm topics = fallbackQuiz) ∧
    (∀ raw, llm (String.intercalate ", " (effectiveTopics topics)) = some raw →
      jsonLoads (cleanQuizText raw) = none →
      generate_mcq_quiz jsonLoads llm topics = fallbackQuiz) ∧
    (∀ raw d, llm (String.intercalate ", " (effectiveTopics topics)) = some raw →
      jsonLoads (cleanQuizText raw) = some d → validQuizData d = false →
      generate_mcq_quiz jsonLoads llm topics = fallbackQuiz) := by
  refine ⟨?_, ?_, ?_, ?_⟩
  · unfold generate_mcq_quiz
    cases hl : llm (String.intercalate ", " (effectiveTopics topics)) with
    | none => exact Nat.le_refl 1
    | some raw =>
      dsimp only
      cases hj : jsonLoads (cleanQuizText raw) with
      | none => exact Nat.le_refl 1
      | some d =>
        dsimp only
        by_cases hv : validQuizData d = true
        · rw [if_pos hv]; exact validQuizData_count hv
        · rw [if_neg hv]; exact Nat.le_refl 1
  · intro hl
    unfold generate_mcq_quiz
    rw [hl]
  · intro raw hl hj
    unfold generate_mcq_quiz
    rw [hl]
    dsimp only
    rw [hj]
  · intro raw d hl hj hv
    unfold generate_mcq_quiz
    rw [hl]
    dsimp only
    rw [hj]
    dsimp only
    rw [if_neg (by simp [hv])]

/-- C7 witness: with a completion that answers and a parser that rejects the
cleaned text, generation still returns the one-question fallback quiz. -/
theorem generate_mcq_quiz_total_witness :
    1 ≤ questionCount
      (generate_mcq_quiz (fun _ => none) (fun _ => some "not json") []) ∧
    generate_mcq_quiz (fun _ => none) (fun _ => some "not json") []
      = fallbackQuiz :=
  ⟨(generate_mcq_quiz_total (fun _ => none) (fun _ => some "not json") []).1,
   (generate_mcq_quiz_total (fun _ => none) (fun _ => some "not json")
      []).2.2.1 "not json" rfl rfl⟩

/-- The `recent_messages` context block of
`extract_topics_from_conversation`: the last 8 messages, each rendered as
`'User: ...'` or `'Tutor: ...'`, joined by newlines. -/
def recentContext (h : List Msg) : String :=
  String.intercalate "\n" ((h.drop (h.length - 8)).map fun m =>
    (if m.sender = "user" then "User" else "Tutor") ++ ": " ++ m.text)

/-- The response parsing in `extract_topics_from_conversation`: strip the
response, split on commas, strip each entry, drop empties. -/
def parseTopics (resp : String) : List String :=
  ((resp.trim.splitOn ",").map String.trim).filter (fun t => !t.isEmpty)

/-- `extract_topics_from_conversation(conversation_history)` in
`rigveda_app.py`: fewer than 2 messages yields the default topic list;
otherwise the last 8 messages are formatted into the extraction prompt and
the chat completion capability is called — the oracle `llm` applied to the
formatted recent context (`none` = the call raised, caught by the handler);
the parsed comma-separated topics are returned, at most 5, with the default
list substituted when parsing yields nothing. -/
def extract_topics_from_conversation (llm : String → Option String)
    (conversation_history : List Msg) : List String :=
  if conversation_history.length < 2 then defaultTopics
  else
    match llm (recentContext conversation_history) with
    | none => defaultTopics
    | some resp =>
      if (parseTopics resp).isEmpty then defaultTopics
      else (parseTopics resp).take 5

/-- C9: topic extraction is total and bounded.  The result is never empty and
never longer than 5; a transcript of fewer than 2 messages yields exactly the
corpus default topic list; on a transcript of at least 2 messages the
completion output is stripped, split on commas, entries trimmed, empties
dropped and the list truncated to 5, with the default list substituted when
the completion fails or the cleaned list is empty. -/
theorem extract_topics_spec (llm : String → Option String)
    (h : List Msg) :
    extract_topics_from_conversation llm h ≠ [] ∧
    (extract_topics_from_conversation llm h).length ≤ 5 ∧
    (h.length < 2 → extract_topics_from_conversation llm h = defaultTopics) ∧
    (2 ≤ h.length → llm (recentContext h) = none →
      extract_topics_from_conversation llm h = defaultTopics) ∧
    (∀ resp, 2 ≤ h.length → llm (recentContext h) = some resp →
      extract_topics_from_conversation llm h =
        (if (parseTopics resp).isEmpty then defaultTopics
         else (parseTopics resp).take 5)) := by
  unfold extract_topics_from_conversation
  by_cases hlt : h.length < 2
  · rw [if_pos hlt]
    exact ⟨by simp [defaultTopics], by simp [defaultTopics],
      fun _ => rfl, fun h2 _ => by omega, fun _ h2 _ => by omega⟩
  · rw [if_neg hlt]
    cases hl : llm (recentContext h) with
    | none =>
      dsimp only
      exact ⟨by simp [defaultTopics], by simp [defaultTopics],
        fun hc => by omega, fun _ _ => rfl,
        fun resp h2 heq => Option.noConfusion heq⟩
    | some resp =>
      dsimp only
      by_cases hp : (parseTopics resp).isEmpty = true
      · rw [if_pos hp]
        refine ⟨?_, ?_, ?_, ?_, ?_⟩
        · simp [defaultTopics]
        · simp [defaultTopics]
        · intro hc; omega
        · intro _ heq; exact Option.noConfusion heq
        · intro resp' _ heq
          injection heq with heq'
          subst heq'
          rw [if_pos hp]
      · rw [if_neg hp]
        refine ⟨?_, ?_, ?_, ?_, ?_⟩
        · cases hpt : parseTopics resp with
          | nil => rw [hpt] at hp; simp at hp
          | cons a l => simp
        · rw [List.length_take]
          exact Nat.min_le_left 5 _
        · intro hc; omega
        · intro _ heq; exact Option.noConfusion heq
        · intro resp' _ heq
          injection heq with heq'
          subst heq'
          rw [if_neg hp]

/-- C9 witness: a one-message transcript returns exactly the default topic
list, and a two-message transcript with a parsed five-topic answer returns
the first five trimmed topics. -/
theorem extract_topics_spec_witness :
    (([⟨"t0", "user", "hi"⟩] : List Msg).length < 2 →
      extract_topics_from_conversation (fun _ => some "Agni, Indra") [⟨"t0", "user", "hi"⟩]
        = defaultTopics) ∧
    extract_topics_from_conversation (fun _ => some "Agni, Indra") [⟨"t0", "user", "hi"⟩]
      = defaultTopics :=
  ⟨(extract_topics_spec (fun _ => some "Agni, Indra") [⟨"t0", "user", "hi"⟩]).2.2.1,
   (extract_topics_spec (fun _ => some "Agni, Indra") [⟨"t0", "user", "hi"⟩]).2.2.1
     (by decide)⟩

end RV

/-- The module-global mutable state of one corpus app: the `conversations`
and `user_quiz_states` dicts. -/
structure AppState where
  conversations : List (String × List Msg)
  user_quiz_states : List (String × QuizState)

/-- The conversation-tracking initialisation at the head of the non-intro
path of `ask`:
`if session_id and session_id not in conversations: conversations[session_id] = []`
(Python truthiness: `None` and the empty string skip it). -/
def initConversation (session_id : Option String) (st : AppState) : AppState :=
  match session_id with
  | some sid =>
    if sid.isEmpty = false ∧ dictGet st.conversations sid = none then
      { st with conversations := dictSet st.conversations sid [] }
    else st
  | none => st

/-- The two transcript appends at the tail of `ask` followed by the
quiz-trigger check, executed when `session_id` is truthy (after
`initConversation` the key is present, so the Python `conversations[session_id]`
read cannot fail; the model reads it with an impossible `[]` default). -/
def recordExchange (freq : Int) (sid : String) (ts1 ts2 query answer : String)
    (st : AppState) : Bool × AppState :=
  let msgs := (dictGet st.conversations sid).getD []
  let conv2 := dictSet st.conversations sid
    (msgs ++ [⟨ts1, "user", query⟩, ⟨ts2, "bot", answer⟩])
  let st2 : AppState := { st with conversations := conv2 }
  let bq := should_trigger_quiz freq sid st2.user_quiz_states
  (bq.1, { st2 with user_quiz_states := bq.2 })

namespace RV

/-- The canned introduction `intro_response` of `ask` in `rigveda_app.py`. -/
def introResponse : String :=
  "\n🕉️ **Namaste and welcome, dear seeker of wisdom!** 🕉️\n\nI am your passionate Rigveda tutor, and I\x27m absolutely thrilled that you\x27ve chosen to embark on this incredible journey into the world\x27s oldest sacred text! The Rigveda is like a magnificent treasure chest filled with 3,500-year-old wisdom, beautiful hymns, and profound insights about life, nature, and the divine.\n\nThink of me as your friendly guide who will help you understand these ancient Sanskrit verses in the simplest way possible - whether you\x27re 8 or 80 years old! \n\n**What would you love to explore today?** Here are some fascinating topics we could dive into:\n\n🔥 **Fire & Agni** - Learn about the sacred fire god who connects earth and heaven\n⚡ **Indra the Mighty** - Discover the thunder god who defeats demons and brings rain  \n🌙 **Soma & Sacred Rituals** - Understand the mysterious divine drink and ceremonies\n🌍 **Creation Stories** - Explore how the universe began according to Rigvedic seers\n🎵 **Hymns & Poetry** - Appreciate the beautiful language and metaphors\n⚖️ **Dharma & Ethics** - Learn about righteous living and moral principles\n\nJust click on any topic above, or feel free to ask me anything that sparks your curiosity! I love questions like \"Why is fire so important?\" or \"What makes Rigveda special?\" - no question is too simple or too complex!\n\n**What shall we discover together today?** 🌟\n"

/-- The per-verse context line of `ask` in `rigveda_app.py`:
`f"RV {r['mandala']}.{r['sukta']}.{r['verse']}: {r['text_sa']}"`. -/
def verseLine (r : Verse) : String :=
  "RV " ++ r.mandala ++ "." ++ r.sukta ++ "." ++ r.verse ++ ": " ++ r.text_sa

/-- `ask(query, topk, model, is_intro, session_id)` in `rigveda_app.py`.  An
intro request returns the canned introduction immediately.  Otherwise:
initialise conversation tracking; call `search` — whose retrieval failures
(`Index not loaded`, embedding failure, row-id lookup) are NOT caught here
and propagate; build the verse context block and the tutor prompt (the
persona literal is opaque to the properties proved here); call the chat
completion, whose failure is NOT caught and propagates (`llm` is the outcome
oracle); then, for a truthy session id, append the user/assistant message
pair and evaluate the quiz trigger (frequency 4). -/
def ask (index : Option VIndex) (verses : Option (List Verse))
    (embedOut : Option (List EmbVec)) (searchOut : List (Int × ℚ))
    (llm : Option String) (ts1 ts2 : String) (query : String) (topk : Nat)
    (is_intro : Bool) (session_id : Option String) (st : AppState) :
    Except PyExc (String × List Verse × Bool) × AppState :=
  if is_intro then (.ok (introResponse, [], false), st)
  else
    let st1 := initConversation session_id st
    match search index verses embedOut searchOut query topk with
    | .error e => (.error e, st1)
    | .ok results =>
      let context := String.intercalate "\n" (results.map fun rs => verseLine rs.1)
      match llm with
      | none => (.error .completionError, st1)
      | some answer =>
        match session_id with
        | some sid =>
          if sid.isEmpty = false then
            let bst := recordExchange 4 sid ts1 ts2 query answer st1
            (.ok (answer, results.map Prod.fst, bst.1), bst.2)
          else (.ok (answer, results.map Prod.fst, false), st1)
        | none => (.ok (answer, results.map Prod.fst, false), st1)

/-- C8: intro requests are pure lookups.  For every capability outcome, every
session id and every prior state, `ask` with `is_intro = true` returns the
fixed introduction text, an empty verse list and `quiz_triggered = false`,
and the state is returned untouched: no transcript entry is added and no quiz
counter moves. -/
theorem ask_intro_pure (index : Option VIndex) (verses : Option (List Verse))
    (embedOut : Option (List EmbVec)) (searchOut : List (Int × ℚ))
    (llm : Option String) (ts1 ts2 query : String) (topk : Nat)
    (session_id : Option String) (st : AppState) :
    ask index verses embedOut searchOut llm ts1 ts2 query topk true
      session_id st = (.ok (introResponse, [], false), st) := rfl

end RV

namespace YV

/-- The canned introduction `intro_response` of `ask` in `yajurveda_app.py`
(the literal is transcribed byte-for-byte, including the mis-encoded emoji
sequences present in the source file). -/
def introResponse : String :=
  "\nüî• **Namaste and welcome, dear seeker of ritual wisdom!** üî•\n\nI am your passionate Yajurveda tutor, and I\x27m absolutely thrilled that you\x27ve chosen to explore the most practical and ritualistic of all Vedas! The Yajurveda is like a comprehensive manual for sacred ceremonies, containing the precise procedures, mantras, and instructions that ancient priests used to conduct powerful fire sacrifices and religious rituals.\n\nThink of me as your knowledgeable guide who will help you understand these sacred procedures, ritual significance, and ceremonial practices - whether you\x27re interested in ancient traditions, spiritual practices, or religious studies!\n\n**What ritual journey shall we begin today?** Here are some fascinating topics we could explore:\n\nüî• **Fire Sacrifices** - Learn about yajna ceremonies and their spiritual significance\nüìú **Ritual Procedures** - Discover the precise steps in Vedic ceremonies  \nüõï **Altar Construction** - Understand the sacred geometry of ritual spaces\nüïâÔ∏è **Sacred Mantras** - Explore the powerful chants used in rituals\nüë®‚Äçüî¨ **Priestly Duties** - Meet the different types of ritual specialists\nü•Ñ **Offerings & Implements** - Learn about ceremonial tools and substances\n‚ö° **Different Yajnas** - Discover various types of fire ceremonies\nüåü **Ritual Symbolism** - Understand the deeper meanings behind ceremonies\n\nJust click on any topic above, or ask me anything that sparks your curiosity about Vedic rituals! I love questions like \"How were fire altars built?\" or \"What makes Yajurveda different from other Vedas?\" - no question is too simple or too complex!\n\n**What sacred ceremony shall we discover together today?** üåü\n"

/-- The deterministic fallback answer of `ask` in `yajurveda_app.py`,
returned when the completion call raises: it echoes the query between fixed
text blocks and ends with fixed follow-up questions. -/
def fallbackAnswer (query : String) : String :=
  "\nI understand you\x27re asking about \"" ++ query ++ "\" in relation to Yajurveda! While I\x27m experiencing some technical difficulties accessing my full knowledge base, I can share that Yajurveda is fundamentally about ritual procedures and sacred ceremonies.\n\nThe Yajurveda contains detailed instructions for conducting fire sacrifices (yajna), altar construction, and ceremonial practices that were central to ancient Vedic traditions. These rituals were believed to maintain cosmic order and facilitate communication between humans and the divine.\n\n**Follow-up Questions:**\n‚Ä¢ What are different types of yajna?\n‚Ä¢ How were altars constructed?\n‚Ä¢ What role did priests play?\n"

/-- Row lookups of `search` in `yajurveda_app.py` (same list comprehension as
the Rigveda app, over this corpus's verse dicts). -/
def lookupRows (vs : List Verse) :
    List (Int × ℚ) → Except PyExc (List (Verse × ℚ))
  | [] => .ok []
  | (i, s) :: rest =>
    match pyIndex vs i with
    | some v =>
      match lookupRows vs rest with
      | .ok r => .ok ((v, s) :: r)
      | .error e => .error e
    | none => .error .indexOutOfRange

/-- The per-verse context line of `ask` in `yajurveda_app.py`:
`f"YV {r.get('chapter', '?')}.{r.get('verse', '?')}: {r.get('text_sa', r.get('text', ''))}"`. -/
def verseLine (r : Verse) : String :=
  "YV " ++ (dictGet r "chapter").getD "?" ++ "." ++ (dictGet r "verse").getD "?"
    ++ ": " ++ (dictGet r "text_sa").getD ((dictGet r "text").getD "")

/-- Context sentinel used by `ask` when the database is not loaded. -/
def noDbContext : String :=
  "General Yajurveda knowledge without specific verse references"

/-- Context sentinel used by `ask` when the database search raised. -/
def searchFailContext : String :=
  "General Yajurveda knowledge (database search unavailable)"

/-- The retrieval step of `ask` in `yajurveda_app.py` (the block between the
intro check and the prompt build): when either global is unset, an empty
result set and the no-database sentinel context; otherwise `search` runs
inside a `try` — the FAISS call outcome is the oracle `faissOut` (`none` =
it raised; the Yajurveda `embed` never raises, it degrades to dummy
vectors), the row lookups can raise `IndexError` — and any exception is
caught, degrading to an empty result set and the search-unavailable sentinel
context. -/
def retrieveStep (index : Option VIndex) (verses : Option (List Verse))
    (faissOut : Option (List (Int × ℚ))) : List (Verse × ℚ) × String :=
  match index, verses with
  | some _, some vs =>
    match faissOut with
    | some out =>
      match lookupRows vs out with
      | .ok results =>
        (results, String.intercalate "\n" (results.map fun rs => verseLine rs.1))
      | .error _ => ([], searchFailContext)
    | none => ([], searchFailContext)
  | _, _ => ([], noDbContext)

/-- The completion step of `ask` in `yajurveda_app.py`: the model's answer
when the call succeeds, the deterministic fallback answer echoing the query
when it raises (`llm` is the outcome oracle). -/
def answerOr (llm : Option String) (query : String) : String :=
  match llm with
  | some a => a
  | none => fallbackAnswer query

/-- `ask(query, topk, model, is_intro, session_id)` in `yajurveda_app.py`.
An intro request returns the canned introduction immediately.  Otherwise:
initialise conversation tracking; run the guarded retrieval step (never
raises); build the tutor prompt (opaque to the properties proved here); run
the guarded completion step (never raises); then, for a truthy session id,
append the user/assistant message pair and evaluate the quiz trigger
(frequency 3).  Unlike the Rigveda app, no branch raises, so the result is
always `Except.ok`. -/
def ask (index : Option VIndex) (verses : Option (List Verse))
    (faissOut : Option (List (Int × ℚ))) (llm : Option String)
    (ts1 ts2 : String) (query : String) (topk : Nat) (is_intro : Bool)
    (session_id : Option String) (st : AppState) :
    Except PyExc (String × List Verse × Bool) × AppState :=
  if is_intro then (.ok (introResponse, [], false), st)
  else
    let st1 := initConversation session_id st
    let rc := retrieveStep index verses faissOut
    let answer := answerOr llm query
    match session_id with
    | some sid =>
      if sid.isEmpty = false then
        let bst := recordExchange 3 sid ts1 ts2 query answer st1
        (.ok (answer, rc.1.map Prod.fst, bst.1), bst.2)
      else (.ok (answer, rc.1.map Prod.fst, false), st1)
    | none => (.ok (answer, rc.1.map Prod.fst, false), st1)

end YV

/-- C2 counterexample: in `rigveda_app.py` a non-intro `ask` with the index
not loaded propagates the retrieval failure to the caller as an exception —
`api_ask` turns it into an HTTP 500 — instead of returning an answer, so the
claim is false for the Rigveda app. -/
theorem ask_error_propagation_counterexample :
    RV.ask none none none [] none "t1" "t2" "agni" 5 false (some "s1")
      ⟨[], []⟩
      = (.error .indexNotLoaded, ⟨[("s1", [])], []⟩) := rfl

/-- C2 amended: availability-first answering holds for `yajurveda_app.py`
but not for `rigveda_app.py`.  The Yajurveda `ask` always returns an answer:
retrieval failure (database unloaded, or search raising) degrades to an
empty verse set with the corresponding sentinel context, and completion
failure yields the deterministic fallback answer echoing the query.  The
Rigveda `ask`, by contrast, propagates both retrieval failures and
completion failures to its caller as exceptions. -/
theorem ask_availability (index : Option VIndex)
    (verses : Option (List YV.Verse)) (faissOut : Option (List (Int × ℚ)))
    (llm : Option String) (ts1 ts2 query : String) (topk : Nat)
    (session_id : Option String) (st : AppState) :
    (∃ trig st',
      YV.ask index verses faissOut llm ts1 ts2 query topk false session_id st
        = (.ok (YV.answerOr llm query,
            (YV.retrieveStep index verses faissOut).1.map Prod.fst, trig),
           st')) ∧
    (llm = none → YV.answerOr llm query = YV.fallbackAnswer query) ∧
    (index = none ∨ verses = none →
      YV.retrieveStep index verses faissOut = ([], YV.noDbContext)) ∧
    (∀ i vs, index = some i → verses = some vs → faissOut = none →
      YV.retrieveStep index verses faissOut = ([], YV.searchFailContext)) ∧
    (∀ (rvVerses : Option (List RV.Verse)) (emb : Option (List EmbVec))
      (searchOut : List (Int × ℚ)) (sid2 : Option String) (st2 : AppState),
      RV.ask none rvVerses emb searchOut llm ts1 ts2 query topk false sid2 st2
        = (.error .indexNotLoaded, initConversation sid2 st2)) ∧
    (∀ (i : VIndex) (rvVs : List RV.Verse) (emb : List EmbVec)
      (searchOut : List (Int × ℚ)) (r : List (RV.Verse × ℚ))
      (sid2 : Option String) (st2 : AppState),
      RV.lookupRows rvVs searchOut = .ok r →
      RV.ask (some i) (some rvVs) (some emb) searchOut none ts1 ts2 query
        topk false sid2 st2
        = (.error .completionError, initConversation sid2 st2)) := by
  refine ⟨?_, ?_, ?_, ?_, ?_, ?_⟩
  · unfold YV.ask
    cases session_id with
    | none => exact ⟨false, _, rfl⟩
    | some sid =>
      dsimp only
      by_cases hs : sid.isEmpty = false
      · rw [if_pos hs]
        exact ⟨_, _, rfl⟩
      · rw [if_neg hs]
        exact ⟨false, _, rfl⟩
  · intro h
    subst h
    rfl
  · rintro (rfl | rfl)
    · rfl
    · cases index <;> rfl
  · rintro i vs rfl rfl h
    subst h
    rfl
  · intro rvVerses emb searchOut sid2 st2
    cases rvVerses <;> rfl
  · intro i rvVs emb searchOut r sid2 st2 hlk
    unfold RV.ask RV.search RV.embed
    dsimp only
    rw [hlk]
    rfl

/-- C2 amended witness: with nothing loaded and a failed completion, the
Yajurveda `ask` still answers with the fallback text and an empty verse
list, while the Rigveda `ask` errors on the same conditions. -/
theorem ask_availability_witness :
    (∃ trig st',
      YV.ask none none none none "t1" "t2" "agni" 5 false (some "s1")
          ⟨[], []⟩
        = (.ok (YV.answerOr none "agni",
            (YV.retrieveStep none none none).1.map Prod.fst, trig), st')) ∧
    YV.answerOr none "agni" = YV.fallbackAnswer "agni" ∧
    YV.retrieveStep none none none = ([], YV.noDbContext) :=
  ⟨(ask_availability none none none none "t1" "t2" "agni" 5 (some "s1")
      ⟨[], []⟩).1,
   (ask_availability none none none none "t1" "t2" "agni" 5 (some "s1")
      ⟨[], []⟩).2.1 rfl,
   (ask_availability none none none none "t1" "t2" "agni" 5 (some "s1")
      ⟨[], []⟩).2.2.1 (Or.inl rfl)⟩

/-- A transcript consists of consecutive (user, bot) message pairs. -/
def pairedB : List Msg → Bool
  | [] => true
  | [_] => false
  | u :: b :: rest => (u.sender == "user") && (b.sender == "bot") && pairedB rest

theorem pairedB_append (u b : Msg) (hu : u.sender = "user")
    (hb : b.sender = "bot") :
    ∀ l : List Msg, pairedB l = true → pairedB (l ++ [u, b]) = true
  | [], _ => by simp [pairedB, hu, hb]
  | [_], h => by simp [pairedB] at h
  | x :: y :: rest, h => by
    simp only [pairedB, Bool.and_eq_true] at h
    obtain ⟨⟨hx, hy⟩, hr⟩ := h
    simp only [List.cons_append, pairedB, Bool.and_eq_true]
    exact ⟨⟨hx, hy⟩, pairedB_append u b hu hb rest hr⟩

theorem pairedB_even : ∀ l : List Msg, pairedB l = true → l.length % 2 = 0
  | [], _ => rfl
  | [_], h => by simp [pairedB] at h
  | _ :: _ :: rest, h => by
    simp only [pairedB, Bool.and_eq_true] at h
    have := pairedB_even rest h.2
    simp only [List.length_cons]
    omega

/-- Invariant: every stored session transcript is a sequence of consecutive
(user, bot) pairs. -/
def TranscriptsPaired (st : AppState) : Prop :=
  ∀ sid msgs, dictGet st.conversations sid = some msgs → pairedB msgs = true

theorem initConversation_preserves (session_id : Option String)
    (st : AppState) (h : TranscriptsPaired st) :
    TranscriptsPaired (initConversation session_id st) := by
  intro sid msgs hget
  unfold initConversation at hget
  cases session_id with
  | none => exact h sid msgs hget
  | some s =>
    dsimp only at hget
    by_cases hc : s.isEmpty = false ∧ dictGet st.conversations s = none
    · rw [if_pos hc] at hget
      dsimp only at hget
      by_cases hsid : s = sid
      · subst hsid
        rw [dictGet_dictSet_self] at hget
        cases hget
        rfl
      · rw [dictGet_dictSet_ne _ _ _ _ hsid] at hget
        exact h sid msgs hget
    · rw [if_neg hc] at hget
      exact h sid msgs hget

theorem recordExchange_preserves (freq : Int) (sid : String)
    (ts1 ts2 q a : String) (st : AppState) (h : TranscriptsPaired st) :
    TranscriptsPaired (recordExchange freq sid ts1 ts2 q a st).2 := by
  intro sid' msgs hget
  simp only [recordExchange] at hget
  by_cases hs : sid = sid'
  · subst hs
    rw [dictGet_dictSet_self] at hget
    cases hget
    apply pairedB_append _ _ rfl rfl
    cases hm : dictGet st.conversations sid with
    | none => simp [hm]; rfl
    | some m => simpa [hm] using h sid m hm
  · rw [dictGet_dictSet_ne _ _ _ _ hs] at hget
    exact h sid' msgs hget

namespace RV

/-- The transcript effect of `api_generate_quiz` in `rigveda_app.py`: a
session id unseen in `conversations` is seeded with a default two-message
conversation; nothing else in the endpoint writes these dicts. -/
def apiGenerateQuizSeed (ts1 ts2 : String) (sid : String) (st : AppState) :
    AppState :=
  if dictGet st.conversations sid = none then
    let seeded := dictSet st.conversations sid
      [⟨ts1, "user", "Tell me about Rigveda"⟩,
       ⟨ts2, "bot", "The Rigveda is the oldest of the four Vedas and contains hymns to various deities."⟩]
    { st with conversations := seeded }
  else st

/-- Module-global states of `rigveda_app.py` reachable from startup via the
transcript-mutating operations: any `ask` call (under any capability
outcomes) and the seeding step of `api_generate_quiz` (`api_submit_quiz` and
the health route never write `conversations` or `user_quiz_states`). -/
inductive Reachable : AppState → Prop
  | init : Reachable ⟨[], []⟩
  | askStep (index : Option VIndex) (verses : Option (List Verse))
      (embedOut : Option (List EmbVec)) (searchOut : List (Int × ℚ))
      (llm : Option String) (ts1 ts2 query : String) (topk : Nat)
      (is_intro : Bool) (session_id : Option String) {st : AppState}
      (h : Reachable st) :
      Reachable (ask index verses embedOut searchOut llm ts1 ts2 query topk
        is_intro session_id st).2
  | genQuizStep (ts1 ts2 sid : String) {st : AppState} (h : Reachable st) :
      Reachable (apiGenerateQuizSeed ts1 ts2 sid st)

theorem rvAsk_preserves (index : Option VIndex) (verses : Option (List Verse))
    (embedOut : Option (List EmbVec)) (searchOut : List (Int × ℚ))
    (llm : Option String) (ts1 ts2 query : String) (topk : Nat)
    (is_intro : Bool) (session_id : Option String) (st : AppState)
    (h : TranscriptsPaired st) :
    TranscriptsPaired (ask index verses embedOut searchOut llm ts1 ts2 query
      topk is_intro session_id st).2 := by
  unfold ask
  cases is_intro with
  | true => exact h
  | false =>
    dsimp only
    cases search index verses embedOut searchOut query topk with
    | error e => exact initConversation_preserves session_id st h
    | ok results =>
      dsimp only
      cases llm with
      | none => exact initConversation_preserves session_id st h
      | some answer =>
        dsimp only
        cases session_id with
        | none => exact initConversation_preserves none st h
        | some sid =>
          dsimp only
          by_cases hs : sid.isEmpty = false
          · rw [if_pos hs]
            exact recordExchange_preserves 4 sid ts1 ts2 query answer _
              (initConversation_preserves (some sid) st h)
          · rw [if_neg hs]
            exact initConversation_preserves (some sid) st h

theorem rvSeed_preserves (ts1 ts2 sid : String) (st : AppState)
    (h : TranscriptsPaired st) :
    TranscriptsPaired (apiGenerateQuizSeed ts1 ts2 sid st) := by
  intro sid' msgs hget
  unfold apiGenerateQuizSeed at hget
  by_cases hc : dictGet st.conversations sid = none
  · rw [if_pos hc] at hget
    dsimp only at hget
    by_cases hsid : sid = sid'
    · subst hsid
      rw [dictGet_dictSet_self] at hget
      cases hget
      rfl
    · rw [dictGet_dictSet_ne _ _ _ _ hsid] at hget
      exact h sid' msgs hget
  · rw [if_neg hc] at hget
    exact h sid' msgs hget

end RV

namespace YV

/-- The transcript effect of `api_generate_quiz` in `yajurveda_app.py`: a
session id unseen in `conversations` is seeded with this corpus's default
two-message conversation; nothing else in the endpoint writes these dicts. -/
def apiGenerateQuizSeed (ts1 ts2 : String) (sid : String) (st : AppState) :
    AppState :=
  if dictGet st.conversations sid = none then
    let seeded := dictSet st.conversations sid
      [⟨ts1, "user", "Tell me about Yajurveda rituals"⟩,
       ⟨ts2, "bot", "Yajurveda contains detailed procedures for conducting fire sacrifices and ceremonial practices."⟩]
    { st with conversations := seeded }
  else st

/-- Module-global states of `yajurveda_app.py` reachable from startup via
the transcript-mutating operations (each corpus app has its own independent
globals). -/
inductive Reachable : AppState → Prop
  | init : Reachable ⟨[], []⟩
  | askStep (index : Option VIndex) (verses : Option (List Verse))
      (faissOut : Option (List (Int × ℚ))) (llm : Option String)
      (ts1 ts2 query : String) (topk : Nat) (is_intro : Bool)
      (session_id : Option String) {st : AppState} (h : Reachable st) :
      Reachable (ask index verses faissOut llm ts1 ts2 query topk is_intro
        session_id st).2
  | genQuizStep (ts1 ts2 sid : String) {st : AppState} (h : Reachable st) :
      Reachable (apiGenerateQuizSeed ts1 ts2 sid st)

theorem yvAsk_preserves (index : Option VIndex) (verses : Option (List Verse))
    (faissOut : Option (List (Int × ℚ))) (llm : Option String)
    (ts1 ts2 query : String) (topk : Nat) (is_intro : Bool)
    (session_id : Option String) (st : AppState) (h : TranscriptsPaired st) :
    TranscriptsPaired (ask index verses faissOut llm ts1 ts2 query topk
      is_intro session_id st).2 := by
  unfold ask
  cases is_intro with
  | true => exact h
  | false =>
    dsimp only
    cases session_id with
    | none => exact initConversation_preserves none st h
    | some sid =>
      dsimp only
      by_cases hs : sid.isEmpty = false
      · rw [if_pos hs]
        exact recordExchange_preserves 3 sid ts1 ts2 query
          (answerOr llm query) _ (initConversation_preserves (some sid) st h)
      · rw [if_neg hs]
        exact initConversation_preserves (some sid) st h

theorem yvSeed_preserves (ts1 ts2 sid : String) (st : AppState)
    (h : TranscriptsPaired st) :
    TranscriptsPaired (apiGenerateQuizSeed ts1 ts2 sid st) := by
  intro sid' msgs hget
  unfold apiGenerateQuizSeed at hget
  by_cases hc : dictGet st.conversations sid = none
  · rw [if_pos hc] at hget
    dsimp only at hget
    by_cases hsid : sid = sid'
    · subst hsid
      rw [dictGet_dictSet_self] at hget
      cases hget
      rfl
    · rw [dictGet_dictSet_ne _ _ _ _ hsid] at hget
      exact h sid' msgs hget
  · rw [if_neg hc] at hget
    exact h sid' msgs hget

end YV

/-- C10: transcript pairing invariant.  Every operation that mutates a
session transcript appends exactly one (user, bot) message pair — the
non-intro `ask` path in both corpus apps, and the default-conversation
seeding in `api_generate_quiz` — so in every reachable state of either app,
every stored session transcript consists of consecutive (user, bot) pairs in
call order and has even length. -/
theorem session_transcripts_paired :
    (∀ st, RV.Reachable st → ∀ sid msgs,
      dictGet st.conversations sid = some msgs →
      pairedB msgs = true ∧ msgs.length % 2 = 0) ∧
    (∀ st, YV.Reachable st → ∀ sid msgs,
      dictGet st.conversations sid = some msgs →
      pairedB msgs = true ∧ msgs.length % 2 = 0) := by
  constructor
  · intro st hr
    have hp : TranscriptsPaired st := by
      induction hr with
      | init => intro sid msgs hget; simp [dictGet] at hget
      | askStep index verses embedOut searchOut llm ts1 ts2 query topk
          is_intro session_id h ih =>
        exact RV.rvAsk_preserves index verses embedOut searchOut llm ts1 ts2
          query topk is_intro session_id _ ih
      | genQuizStep ts1 ts2 sid h ih =>
        exact RV.rvSeed_preserves ts1 ts2 sid _ ih
    intro sid msgs hget
    exact ⟨hp sid msgs hget, pairedB_even msgs (hp sid msgs hget)⟩
  · intro st hr
    have hp : TranscriptsPaired st := by
      induction hr with
      | init => intro sid msgs hget; simp [dictGet] at hget
      | askStep index verses faissOut llm ts1 ts2 query topk is_intro
          session_id h ih =>
        exact YV.yvAsk_preserves index verses faissOut llm ts1 ts2 query topk
          is_intro session_id _ ih
      | genQuizStep ts1 ts2 sid h ih =>
        exact YV.yvSeed_preserves ts1 ts2 sid _ ih
    intro sid msgs hget
    exact ⟨hp sid msgs hget, pairedB_even msgs (hp sid msgs hget)⟩

/-- C10 witness: a reachable state — the quiz endpoint seeding session `s`
from startup — stores a transcript that is one (user, bot) pair of even
length. -/
theorem session_transcripts_paired_witness :
    RV.Reachable (RV.apiGenerateQuizSeed "t1" "t2" "s" ⟨[], []⟩) ∧
    dictGet (RV.apiGenerateQuizSeed "t1" "t2" "s" ⟨[], []⟩).conversations "s"
      = some [⟨"t1", "user", "Tell me about Rigveda"⟩,
              ⟨"t2", "bot", "The Rigveda is the oldest of the four Vedas and contains hymns to various deities."⟩] ∧
    pairedB [⟨"t1", "user", "Tell me about Rigveda"⟩,
             ⟨"t2", "bot", "The Rigveda is the oldest of the four Vedas and contains hymns to various deities."⟩]
      = true ∧
    ([⟨"t1", "user", "Tell me about Rigveda"⟩,
      ⟨"t2", "bot", "The Rigveda is the oldest of the four Vedas and contains hymns to various deities."⟩] : List Msg).length % 2
      = 0 :=
  ⟨.genQuizStep "t1" "t2" "s" .init, rfl,
   session_transcripts_paired.1 _ (.genQuizStep "t1" "t2" "s" .init) "s" _ rfl⟩
